import Mathlib

/-!
Verification of the `inquisitive` RAG caching layer (`src/rag/rag.py`).

The repository is a single module: class `RAGTask` (lookup-or-generate
orchestration over a Weaviate vector store) and `call_llm` / `call_chatgpt`
(a thin generation client with model-name validation).

Shallow embedding choices:
* The store (Weaviate, accessed through the `db` module of the repository, which
  is not under `src/`) is modelled from the spec as an association list from
  key (uuid string) to stored record; exact fetch, delete and insert are
  modelled from the Store Client interface of the spec.
* `generate_uuid5` (weaviate library), vector similarity search, and the
  OpenAI chat-completion call are external black boxes; they appear as
  fields of an `Env` parameter, so every theorem quantifies over them.
* Python exceptions become an `Except` result; each `raise` site of the
  source gets its own constructor of `RagError`, carrying the data the
  source interpolates into the `ValueError` message.
* `get_output` additionally reports its observable effects: how many times
  the generation backend was invoked, which keys were deleted, and which
  keys were written.
-/

namespace Inquisitive

/-- `GPT_MODELS = ["gpt-3.5-turbo", "gpt-3.5-turbo-16k", "gpt-4", "gpt-4-32k"]`
(rag.py line 19). -/
def GPT_MODELS : List String :=
  ["gpt-3.5-turbo", "gpt-3.5-turbo-16k", "gpt-4", "gpt-4-32k"]

/-- `ALL_MODELS = GPT_MODELS` (rag.py line 20). -/
def ALL_MODELS : List String := GPT_MODELS

/-- The Python substring test `sub in s`, on the character list of `s`:
helper that checks whether `sub` is a prefix of some suffix. -/
def containsSubAux (sub : List Char) : List Char → Bool
  | [] => sub.isEmpty
  | c :: cs => sub.isPrefixOf (c :: cs) || containsSubAux sub cs

/-- The Python substring test `sub in s` (used by `call_llm` as
`"gpt" in model_name`, rag.py line 97). -/
def containsSub (sub s : String) : Bool :=
  containsSubAux sub.toList s.toList

/-- One constructor per `raise` site of the source, plus a constructor for
errors propagated unchanged from the external backends (what the spec calls
"propagated infrastructure errors"). -/
inductive RagError where
  /-- `ValueError("task_prompt_builder must be a callable function")`
  (rag.py line 35); named `ConfigurationError` by the spec. -/
  | notCallable : RagError
  /-- `ValueError(f"Model name {model_name} not recognised")`
  (rag.py line 95); named `UnrecognizedModelError` by the spec. -/
  | modelNotRecognised (model_name : String) : RagError
  /-- `ValueError(f"No function exists to handle for model {model_name}")`
  (rag.py line 100); named `UnsupportedModelError` by the spec. -/
  | noHandlerForModel (model_name : String) : RagError
  /-- An error raised inside an external client (OpenAI / Weaviate) and
  propagated unchanged. -/
  | backend (msg : String) : RagError
deriving DecidableEq, Repr

/-- A persisted generation record: `{key → prompt text, generated output}`;
the key itself is the association-list key. -/
structure StoredRecord where
  prompt : String
  generated_text : String
deriving DecidableEq, Repr

/-- Modelled from the spec: the persisted state of the Store Client, an
association of content keys to stored generation records (the `db` module of the repository
and the Weaviate collection behind it are not under `src/`).
Lookup finds the newest binding first, so inserting at the head gives the
"idempotent upsert" of the spec. -/
abbrev Store := List (String × StoredRecord)

/-- Modelled from the spec: exact-key fetch, `fetch_by_key(key) -> record |
absent`; first binding for the key wins. -/
def storeLookup : Store → String → Option StoredRecord
  | [], _ => none
  | (k, v) :: rest, key => if k = key then some v else storeLookup rest key

/-- Modelled from the spec: `db.load_generated_text(client, uuid)` — exact
lookup by content key, returning the stored generated text when present
(rag.py line 56). -/
def load_generated_text (store : Store) (uuid : String) : Option String :=
  (storeLookup store uuid).map StoredRecord.generated_text

/-- Modelled from the spec: `client.data_object.delete(uuid, ...)` — remove
every record stored under the key (rag.py line 61). -/
def deleteObject : Store → String → Store
  | [], _ => []
  | (k, v) :: rest, key =>
      if k = key then deleteObject rest key else (k, v) :: deleteObject rest key

/-- Modelled from the spec: `db.save_generated_text(client, prompt, text,
uuid)` — persist `{content key, prompt, generated output}` and return the
key (rag.py line 81). -/
def save_generated_text (store : Store) (task_prompt generated_text uuid : String) :
    String × Store :=
  (uuid, (uuid, ⟨task_prompt, generated_text⟩) :: store)

/-- A transient similarity-search result, as the source reads it:
`_additional.id`, `_additional.distance`, and `generated_text`
(rag.py lines 72-76). -/
structure Neighbor where
  id : String
  distance : Rat
  generated_text : String
deriving DecidableEq, Repr

/-- The external collaborators of the orchestration code, abstracted:
the weaviate `generate_uuid5` name-based hash, the vector similarity
search of the `db` module (returns only neighbors whose similarity meets
the threshold, nearest first — modelled from the spec, `db.py` is not under
`src/`), and the OpenAI chat-completion request performed by
`call_chatgpt`. -/
structure Env where
  generate_uuid5 : String → String
  find_similar_objects : Store → String → Rat → List Neighbor
  chatgpt_backend : String → String → Except String String

/-- `call_chatgpt` (rag.py lines 103-121): sends the "Default" system
prompt and the user prompt to the chat-completion API and returns the
message content of the first choice; the remote call itself is the abstract
`Env.chatgpt_backend`. -/
def call_chatgpt (env : Env) (prompt model_name : String) : Except String String :=
  env.chatgpt_backend prompt model_name

/-- Result of `call_llm`: the returned text or the raised error, together
with how many chat-completion requests were issued. -/
structure CallResult where
  result : Except RagError String
  backend_calls : Nat
deriving Repr

/-- `call_llm` (rag.py lines 86-100): reject a model name outside
`ALL_MODELS`; dispatch names containing `"gpt"` to `call_chatgpt`; any
other recognised name has no handler. -/
def call_llm (env : Env) (prompt model_name : String) : CallResult :=
  if model_name ∉ ALL_MODELS then
    ⟨.error (.modelNotRecognised model_name), 0⟩
  else if containsSub "gpt" model_name then
    match call_chatgpt env prompt model_name with
    | .ok content => ⟨.ok content, 1⟩
    | .error msg => ⟨.error (.backend msg), 1⟩
  else
    ⟨.error (.noHandlerForModel model_name), 0⟩

/-- A Python value passed as `task_prompt_builder`: either callable (a
function from source text to prompt text) or not. -/
inductive PyValue where
  | callable (f : String → String) : PyValue
  | notCallable : PyValue

/-- `RAGTask` after successful construction: its prompt builder is known
callable. (The `generated_text = None` attribute of the source and the store
client handle play no part in the behaviour of `get_output`; the
store is threaded explicitly.) -/
structure RAGTask where
  task_prompt_builder : String → String

/-- `RAGTask.__init__` (rag.py lines 33-41): raise
`ValueError("task_prompt_builder must be a callable function")` when the
builder is not callable, otherwise construct the task. -/
def RAGTask.init : PyValue → Except RagError RAGTask
  | .callable f => .ok ⟨f⟩
  | .notCallable => .error .notCallable

/-- The content key computed by `get_output` (rag.py lines 52-53):
`generate_uuid5(task_prompt_builder(source_text))`. -/
def compute_content_key (env : Env) (task : RAGTask) (source_text : String) : String :=
  env.generate_uuid5 (task.task_prompt_builder source_text)

/-- Result of one `get_output` call: the returned text or raised error,
the store after the call, the number of chat-completion requests issued,
and the keys deleted from / written to the store, in order. -/
structure GetOutputResult where
  result : Except RagError String
  store : Store
  gen_calls : Nat
  deleted : List String
  saved : List String
deriving Repr

/-- The tail of `get_output` shared by the overwrite-hit path and the full
miss path (rag.py lines 78-83): call `call_llm`, and on success persist
the generated text under the content key and return it; an exception from
`call_llm` propagates before any write. -/
def generate_and_save (env : Env) (store : Store) (task_prompt uuid model_name : String) :
    GetOutputResult :=
  let c := call_llm env task_prompt model_name
  match c.result with
  | .error e => ⟨.error e, store, c.backend_calls, [], []⟩
  | .ok generated_text =>
      let (uuid2, store2) := save_generated_text store task_prompt generated_text uuid
      ⟨.ok generated_text, store2, c.backend_calls, [], [uuid2]⟩

/-- `RAGTask.get_output` (rag.py lines 43-83): build the prompt, compute
the uuid5 content key, try the exact lookup (returning the stored text on
a hit unless `overwrite`, in which case the record is deleted first); on a
miss run the similarity search with threshold 0.95 and return the top
stored text of the top neighbor if any qualifies; otherwise generate, save and
return. Note the similarity search happens only in the `else` branch of
the exact lookup, so the overwrite path never reaches it. -/
def RAGTask.get_output (env : Env) (task : RAGTask) (store : Store)
    (source_text model_name : String) (overwrite : Bool) : GetOutputResult :=
  let task_prompt := task.task_prompt_builder source_text
  let uuid := env.generate_uuid5 task_prompt
  match load_generated_text store uuid with
  | some fetched_object =>
      if overwrite then
        let r := generate_and_save env (deleteObject store uuid) task_prompt uuid model_name
        { r with deleted := uuid :: r.deleted }
      else
        ⟨.ok fetched_object, store, 0, [], []⟩
  | none =>
      match env.find_similar_objects store task_prompt ((95 : Rat) / 100) with
      | most_similar_object :: _ =>
          ⟨.ok most_similar_object.generated_text, store, 0, [], []⟩
      | [] => generate_and_save env store task_prompt uuid model_name

/-- A concrete environment for evaluating the model: a tagging key
function, an empty similarity index, and a backend that echoes its
prompt. -/
def demoEnv : Env where
  generate_uuid5 := fun p => "K:" ++ p
  find_similar_objects := fun _ _ _ => []
  chatgpt_backend := fun p _ => .ok ("gen:" ++ p)

/-- A concrete environment whose similarity search always reports one
qualifying neighbor. -/
def simEnv : Env where
  generate_uuid5 := fun p => "K:" ++ p
  find_similar_objects := fun _ _ _ => [⟨"N1", (1 : Rat) / 100, "NEIGHBOR"⟩]
  chatgpt_backend := fun _ _ => .ok "GENERATED"

/-- A concrete environment whose generation backend always raises. -/
def failEnv : Env where
  generate_uuid5 := fun p => "K:" ++ p
  find_similar_objects := fun _ _ _ => []
  chatgpt_backend := fun _ _ => .error "boom"

/-- A concrete task: prepends a fixed instruction to the source text. -/
def demoTask : RAGTask := ⟨fun s => "P:" ++ s⟩

/-- A concrete task whose builder ignores its argument. -/
def constTask : RAGTask := ⟨fun _ => "P:a"⟩

/-! ## Shared lemmas -/

/-- Deleting a key removes every record stored under it. -/
theorem storeLookup_deleteObject (store : Store) (key : String) :
    storeLookup (deleteObject store key) key = none := by
  induction store with
  | nil => rfl
  | cons kv rest ih =>
      obtain ⟨k, v⟩ := kv
      by_cases hk : k = key <;> simp [deleteObject, hk, storeLookup, ih]

/-- A successful `call_llm` issued exactly one chat-completion request. -/
theorem call_llm_ok_eq (env : Env) (prompt model_name g : String)
    (h : (call_llm env prompt model_name).result = .ok g) :
    call_llm env prompt model_name = ⟨.ok g, 1⟩ := by
  unfold call_llm at h ⊢
  split at h
  · simp_all
  · split at h
    · cases hc : call_chatgpt env prompt model_name <;> simp_all
    · simp_all

/-- Every error raised by `call_llm` is one of the two validation errors
for the given model name, or an error propagated from the backend. -/
theorem call_llm_error_cases (env : Env) (prompt model_name : String) (e : RagError)
    (h : (call_llm env prompt model_name).result = .error e) :
    e = .modelNotRecognised model_name ∨ e = .noHandlerForModel model_name ∨
      ∃ msg, e = .backend msg := by
  unfold call_llm at h
  split at h
  · exact Or.inl (Except.error.inj h).symm
  · split at h
    · cases hc : call_chatgpt env prompt model_name with
      | ok c => rw [hc] at h; simp at h
      | error msg => rw [hc] at h; exact Or.inr (Or.inr ⟨msg, (Except.error.inj h).symm⟩)
    · exact Or.inr (Or.inl (Except.error.inj h).symm)

/-- Shape of `generate_and_save` when generation succeeds. -/
theorem generate_and_save_ok (env : Env) (store : Store) (task_prompt uuid model_name g : String)
    (h : (call_llm env task_prompt model_name).result = .ok g) :
    generate_and_save env store task_prompt uuid model_name =
      ⟨.ok g, (uuid, ⟨task_prompt, g⟩) :: store, 1, [], [uuid]⟩ := by
  unfold generate_and_save
  rw [call_llm_ok_eq env task_prompt model_name g h]
  rfl

/-- Shape of `generate_and_save` when generation raises: the error
propagates and the store is untouched. -/
theorem generate_and_save_error (env : Env) (store : Store)
    (task_prompt uuid model_name : String) (e : RagError)
    (h : (call_llm env task_prompt model_name).result = .error e) :
    generate_and_save env store task_prompt uuid model_name =
      ⟨.error e, store, (call_llm env task_prompt model_name).backend_calls, [], []⟩ := by
  unfold generate_and_save
  simp only [h]

/-- Branch lemma: exact hit without overwrite (rag.py lines 56-64). -/
theorem get_output_exact_hit (env : Env) (task : RAGTask) (store : Store)
    (source_text model_name out : String)
    (h : load_generated_text store
        (env.generate_uuid5 (task.task_prompt_builder source_text)) = some out) :
    task.get_output env store source_text model_name false =
      ⟨.ok out, store, 0, [], []⟩ := by
  unfold RAGTask.get_output
  simp only [h]
  rfl

/-- Branch lemma: exact hit with overwrite (rag.py lines 57-62 then
78-83): delete the record, then generate and save under the same key. -/
theorem get_output_overwrite_hit (env : Env) (task : RAGTask) (store : Store)
    (source_text model_name out : String)
    (h : load_generated_text store
        (env.generate_uuid5 (task.task_prompt_builder source_text)) = some out) :
    task.get_output env store source_text model_name true =
      { generate_and_save env
          (deleteObject store (env.generate_uuid5 (task.task_prompt_builder source_text)))
          (task.task_prompt_builder source_text)
          (env.generate_uuid5 (task.task_prompt_builder source_text)) model_name with
        deleted := env.generate_uuid5 (task.task_prompt_builder source_text) ::
          (generate_and_save env
            (deleteObject store (env.generate_uuid5 (task.task_prompt_builder source_text)))
            (task.task_prompt_builder source_text)
            (env.generate_uuid5 (task.task_prompt_builder source_text)) model_name).deleted } := by
  unfold RAGTask.get_output
  simp only [h]
  rfl

/-- Branch lemma: exact miss with a qualifying similarity neighbor
(rag.py lines 66-76). -/
theorem get_output_sim_hit (env : Env) (task : RAGTask) (store : Store)
    (source_text model_name : String) (overwrite : Bool)
    (nb : Neighbor) (rest : List Neighbor)
    (h : load_generated_text store
        (env.generate_uuid5 (task.task_prompt_builder source_text)) = none)
    (hs : env.find_similar_objects store (task.task_prompt_builder source_text)
        ((95 : Rat) / 100) = nb :: rest) :
    task.get_output env store source_text model_name overwrite =
      ⟨.ok nb.generated_text, store, 0, [], []⟩ := by
  unfold RAGTask.get_output
  simp only [h, hs]

/-- Branch lemma: full miss (rag.py lines 66-69 then 78-83). -/
theorem get_output_miss (env : Env) (task : RAGTask) (store : Store)
    (source_text model_name : String) (overwrite : Bool)
    (h : load_generated_text store
        (env.generate_uuid5 (task.task_prompt_builder source_text)) = none)
    (hs : env.find_similar_objects store (task.task_prompt_builder source_text)
        ((95 : Rat) / 100) = []) :
    task.get_output env store source_text model_name overwrite =
      generate_and_save env store (task.task_prompt_builder source_text)
        (env.generate_uuid5 (task.task_prompt_builder source_text)) model_name := by
  unfold RAGTask.get_output
  simp only [h, hs]

/-- Any error returned by `get_output` was raised by the `call_llm` call
on the built prompt. -/
theorem get_output_error_from_call_llm (env : Env) (task : RAGTask) (store : Store)
    (source_text model_name : String) (overwrite : Bool) (e : RagError)
    (h : (task.get_output env store source_text model_name overwrite).result = .error e) :
    (call_llm env (task.task_prompt_builder source_text) model_name).result = .error e := by
  cases hl : load_generated_text store
      (env.generate_uuid5 (task.task_prompt_builder source_text)) with
  | some out =>
      cases overwrite with
      | false =>
          rw [get_output_exact_hit env task store source_text model_name out hl] at h
          simp at h
      | true =>
          rw [get_output_overwrite_hit env task store source_text model_name out hl] at h
          cases hc : (call_llm env (task.task_prompt_builder source_text) model_name).result with
          | ok g =>
              rw [generate_and_save_ok env _ _ _ model_name g hc] at h
              simp at h
          | error e2 =>
              rw [generate_and_save_error env _ _ _ model_name e2 hc] at h
              simp at h
              rw [h]
  | none =>
      cases hs : env.find_similar_objects store (task.task_prompt_builder source_text)
          ((95 : Rat) / 100) with
      | cons nb rest =>
          rw [get_output_sim_hit env task store source_text model_name overwrite nb rest hl hs] at h
          simp at h
      | nil =>
          rw [get_output_miss env task store source_text model_name overwrite hl hs] at h
          cases hc : (call_llm env (task.task_prompt_builder source_text) model_name).result with
          | ok g =>
              rw [generate_and_save_ok env _ _ _ model_name g hc] at h
              simp at h
          | error e2 =>
              rw [generate_and_save_error env _ _ _ model_name e2 hc] at h
              simp at h
              rw [h]

/-- Every possible outcome of `get_output`: a pure read returning a cached
or neighboring output with no effect, a successful generation that wrote
exactly the content key, or a propagated generation error with nothing
written. -/
theorem get_output_outcomes (env : Env) (task : RAGTask) (store : Store)
    (source_text model_name : String) (overwrite : Bool) :
    (∃ out, (task.get_output env store source_text model_name overwrite).result = .ok out ∧
        (task.get_output env store source_text model_name overwrite).saved = [] ∧
        (task.get_output env store source_text model_name overwrite).gen_calls = 0) ∨
    (∃ g, (call_llm env (task.task_prompt_builder source_text) model_name).result = .ok g ∧
        (task.get_output env store source_text model_name overwrite).result = .ok g ∧
        (task.get_output env store source_text model_name overwrite).saved =
          [env.generate_uuid5 (task.task_prompt_builder source_text)] ∧
        (task.get_output env store source_text model_name overwrite).gen_calls = 1) ∨
    (∃ e, (call_llm env (task.task_prompt_builder source_text) model_name).result = .error e ∧
        (task.get_output env store source_text model_name overwrite).result = .error e ∧
        (task.get_output env store source_text model_name overwrite).saved = []) := by
  cases hl : load_generated_text store
      (env.generate_uuid5 (task.task_prompt_builder source_text)) with
  | some out =>
      cases overwrite with
      | false =>
          rw [get_output_exact_hit env task store source_text model_name out hl]
          exact Or.inl ⟨out, rfl, rfl, rfl⟩
      | true =>
          rw [get_output_overwrite_hit env task store source_text model_name out hl]
          cases hc : (call_llm env (task.task_prompt_builder source_text) model_name).result with
          | ok g =>
              rw [generate_and_save_ok env _ _ _ model_name g hc]
              exact Or.inr (Or.inl ⟨g, rfl, rfl, rfl, rfl⟩)
          | error e2 =>
              rw [generate_and_save_error env _ _ _ model_name e2 hc]
              exact Or.inr (Or.inr ⟨e2, rfl, rfl, rfl⟩)
  | none =>
      cases hs : env.find_similar_objects store (task.task_prompt_builder source_text)
          ((95 : Rat) / 100) with
      | cons nb rest =>
          rw [get_output_sim_hit env task store source_text model_name overwrite nb rest hl hs]
          exact Or.inl ⟨nb.generated_text, rfl, rfl, rfl⟩
      | nil =>
          rw [get_output_miss env task store source_text model_name overwrite hl hs]
          cases hc : (call_llm env (task.task_prompt_builder source_text) model_name).result with
          | ok g =>
              rw [generate_and_save_ok env _ _ _ model_name g hc]
              exact Or.inr (Or.inl ⟨g, rfl, rfl, rfl, rfl⟩)
          | error e2 =>
              rw [generate_and_save_error env _ _ _ model_name e2 hc]
              exact Or.inr (Or.inr ⟨e2, rfl, rfl, rfl⟩)

/-! ## Claims -/

/-- C1: when the built prompt already has a stored record under its
content key and `overwrite = false`, `get_output` returns exactly that
stored output, issues no generation call, writes nothing, deletes
nothing, and leaves the store unchanged. -/
theorem C1_exact_hit_pure_read (env : Env) (task : RAGTask) (store : Store)
    (source_text model_name out : String)
    (h : load_generated_text store (compute_content_key env task source_text) = some out) :
    task.get_output env store source_text model_name false =
      ⟨.ok out, store, 0, [], []⟩ :=
  get_output_exact_hit env task store source_text model_name out h

/-- Witness for C1 at a concrete task, store and environment. -/
theorem C1_exact_hit_pure_read_witness :
    load_generated_text [("K:P:a", ⟨"P:a", "cached"⟩)]
        (compute_content_key demoEnv demoTask "a") = some "cached" ∧
    RAGTask.get_output demoEnv demoTask [("K:P:a", ⟨"P:a", "cached"⟩)] "a" "gpt-4" false =
      ⟨.ok "cached", [("K:P:a", ⟨"P:a", "cached"⟩)], 0, [], []⟩ :=
  ⟨by rfl,
   C1_exact_hit_pure_read demoEnv demoTask [("K:P:a", ⟨"P:a", "cached"⟩)] "a" "gpt-4"
     "cached" (by rfl)⟩

/-- C2 counterexample: with a record stored under the content key,
`overwrite = true`, and a similarity index holding a qualifying neighbor
(output "NEIGHBOR") for the post-delete store, the code does NOT fall
through to the similarity lookup: it performs a generation call
(`gen_calls = 1`) and returns the freshly generated output, not the
stored output of the neighbor. -/
theorem C2_overwrite_counterexample :
    simEnv.find_similar_objects
        (deleteObject [("K:P:a", ⟨"P:a", "OLD"⟩)] (compute_content_key simEnv demoTask "a"))
        (demoTask.task_prompt_builder "a") ((95 : Rat) / 100) =
      [⟨"N1", (1 : Rat) / 100, "NEIGHBOR"⟩] ∧
    (RAGTask.get_output simEnv demoTask [("K:P:a", ⟨"P:a", "OLD"⟩)] "a" "gpt-4" true).result =
      .ok "GENERATED" ∧
    (RAGTask.get_output simEnv demoTask [("K:P:a", ⟨"P:a", "OLD"⟩)] "a" "gpt-4" true).gen_calls = 1 ∧
    (RAGTask.get_output simEnv demoTask [("K:P:a", ⟨"P:a", "OLD"⟩)] "a" "gpt-4" true).result ≠
      .ok "NEIGHBOR" := by
  refine ⟨by rfl, by rfl, by rfl, ?_⟩
  intro hcontra
  rw [show (RAGTask.get_output simEnv demoTask [("K:P:a", ⟨"P:a", "OLD"⟩)] "a" "gpt-4"
      true).result = .ok "GENERATED" from rfl] at hcontra
  simp at hcontra

/-- C2 (amended): when a record exists for the content key and
`overwrite = true`, `get_output` deletes that record and proceeds
directly to generation — the similarity lookup of Step 4 is skipped (the
result does not depend on the similarity index at all) — and the write of
Step 5 recreates the record under the same key. -/
theorem C2_overwrite_regenerates (env : Env) (task : RAGTask) (store : Store)
    (source_text model_name out g : String)
    (h : load_generated_text store (compute_content_key env task source_text) = some out)
    (hg : (call_llm env (task.task_prompt_builder source_text) model_name).result = .ok g) :
    task.get_output env store source_text model_name true =
      ⟨.ok g,
        (compute_content_key env task source_text,
          ⟨task.task_prompt_builder source_text, g⟩) ::
          deleteObject store (compute_content_key env task source_text),
        1, [compute_content_key env task source_text],
        [compute_content_key env task source_text]⟩ ∧
    load_generated_text (task.get_output env store source_text model_name true).store
        (compute_content_key env task source_text) = some g ∧
    ∀ sim2, RAGTask.get_output { env with find_similar_objects := sim2 }
        task store source_text model_name true =
      task.get_output env store source_text model_name true := by
  have h' : load_generated_text store
      (env.generate_uuid5 (task.task_prompt_builder source_text)) = some out := h
  have e1 := get_output_overwrite_hit env task store source_text model_name out h'
  rw [generate_and_save_ok env _ _ _ model_name g hg] at e1
  refine ⟨by rw [e1]; rfl, ?_, ?_⟩
  · rw [e1]
    simp [load_generated_text, storeLookup, compute_content_key]
  · intro sim2
    have hg2 : (call_llm { env with find_similar_objects := sim2 }
        (task.task_prompt_builder source_text) model_name).result = .ok g := hg
    have e2 := get_output_overwrite_hit { env with find_similar_objects := sim2 }
        task store source_text model_name out h'
    rw [generate_and_save_ok { env with find_similar_objects := sim2 }
        _ _ _ model_name g hg2] at e2
    rw [e1, e2]

/-- Witness for the amended C2 at a concrete task, store and
environment. -/
theorem C2_overwrite_regenerates_witness :
    load_generated_text [("K:P:a", ⟨"P:a", "OLD"⟩)]
        (compute_content_key demoEnv demoTask "a") = some "OLD" ∧
    (RAGTask.get_output demoEnv demoTask [("K:P:a", ⟨"P:a", "OLD"⟩)] "a" "gpt-4" true).result =
      .ok "gen:P:a" ∧
    load_generated_text
        (RAGTask.get_output demoEnv demoTask [("K:P:a", ⟨"P:a", "OLD"⟩)] "a" "gpt-4" true).store
        (compute_content_key demoEnv demoTask "a") = some "gen:P:a" :=
  ⟨by rfl,
   by rw [(C2_overwrite_regenerates demoEnv demoTask [("K:P:a", ⟨"P:a", "OLD"⟩)] "a" "gpt-4"
       "OLD" "gen:P:a" (by rfl) (by rfl)).1],
   (C2_overwrite_regenerates demoEnv demoTask [("K:P:a", ⟨"P:a", "OLD"⟩)] "a" "gpt-4"
     "OLD" "gen:P:a" (by rfl) (by rfl)).2.1⟩

/-- C3: on an exact miss with a qualifying similarity neighbor,
`get_output` returns the stored output of the top neighbor, issues no
generation call, writes nothing and deletes nothing, and a subsequent
exact lookup for the content key of this prompt still misses. -/
theorem C3_similarity_hit_no_write (env : Env) (task : RAGTask) (store : Store)
    (source_text model_name : String) (overwrite : Bool)
    (nb : Neighbor) (rest : List Neighbor)
    (h : load_generated_text store (compute_content_key env task source_text) = none)
    (hs : env.find_similar_objects store (task.task_prompt_builder source_text)
        ((95 : Rat) / 100) = nb :: rest) :
    task.get_output env store source_text model_name overwrite =
      ⟨.ok nb.generated_text, store, 0, [], []⟩ ∧
    load_generated_text (task.get_output env store source_text model_name overwrite).store
        (compute_content_key env task source_text) = none := by
  have e1 := get_output_sim_hit env task store source_text model_name overwrite nb rest h hs
  exact ⟨e1, by rw [e1]; exact h⟩

/-- Witness for C3 at a concrete task, store and environment. -/
theorem C3_similarity_hit_no_write_witness :
    RAGTask.get_output simEnv demoTask [] "a" "gpt-4" false =
      ⟨.ok "NEIGHBOR", [], 0, [], []⟩ ∧
    load_generated_text (RAGTask.get_output simEnv demoTask [] "a" "gpt-4" false).store
        (compute_content_key simEnv demoTask "a") = none :=
  ⟨(C3_similarity_hit_no_write simEnv demoTask [] "a" "gpt-4" false
      ⟨"N1", (1 : Rat) / 100, "NEIGHBOR"⟩ [] (by rfl) (by rfl)).1,
   (C3_similarity_hit_no_write simEnv demoTask [] "a" "gpt-4" false
      ⟨"N1", (1 : Rat) / 100, "NEIGHBOR"⟩ [] (by rfl) (by rfl)).2⟩

/-- C4: on a full miss (no exact record, no qualifying neighbor) with a
successful generation, `get_output` issues exactly one generation call,
persists the content key, prompt and generated output, returns that
output, and a subsequent exact lookup for the key returns the same
output. -/
theorem C4_miss_generates_once_and_saves (env : Env) (task : RAGTask) (store : Store)
    (source_text model_name g : String) (overwrite : Bool)
    (h : load_generated_text store (compute_content_key env task source_text) = none)
    (hs : env.find_similar_objects store (task.task_prompt_builder source_text)
        ((95 : Rat) / 100) = [])
    (hg : (call_llm env (task.task_prompt_builder source_text) model_name).result = .ok g) :
    task.get_output env store source_text model_name overwrite =
      ⟨.ok g,
        (compute_content_key env task source_text,
          ⟨task.task_prompt_builder source_text, g⟩) :: store,
        1, [], [compute_content_key env task source_text]⟩ ∧
    load_generated_text (task.get_output env store source_text model_name overwrite).store
        (compute_content_key env task source_text) = some g := by
  have e1 := get_output_miss env task store source_text model_name overwrite h hs
  rw [generate_and_save_ok env store _ _ model_name g hg] at e1
  refine ⟨e1, ?_⟩
  rw [e1]
  simp [load_generated_text, storeLookup, compute_content_key]

/-- Witness for C4 at a concrete task and environment, on the empty
store. -/
theorem C4_miss_generates_once_and_saves_witness :
    RAGTask.get_output demoEnv demoTask [] "a" "gpt-4" false =
      ⟨.ok "gen:P:a",
        [(compute_content_key demoEnv demoTask "a", ⟨"P:a", "gen:P:a"⟩)],
        1, [], [compute_content_key demoEnv demoTask "a"]⟩ ∧
    load_generated_text (RAGTask.get_output demoEnv demoTask [] "a" "gpt-4" false).store
        (compute_content_key demoEnv demoTask "a") = some "gen:P:a" :=
  ⟨(C4_miss_generates_once_and_saves demoEnv demoTask [] "a" "gpt-4" "gen:P:a" false
      (by rfl) (by rfl) (by rfl)).1,
   (C4_miss_generates_once_and_saves demoEnv demoTask [] "a" "gpt-4" "gen:P:a" false
      (by rfl) (by rfl) (by rfl)).2⟩

/-- C5: the content key is a deterministic function of the prompt text
alone — two tasks (or two calls) whose builders produce byte-identical
prompt text get the same key, and in fact `get_output` behaves
identically for them on every store. -/
theorem C5_content_key_deterministic (env : Env) (t1 t2 : RAGTask) (s1 s2 : String)
    (h : t1.task_prompt_builder s1 = t2.task_prompt_builder s2) :
    compute_content_key env t1 s1 = compute_content_key env t2 s2 ∧
    ∀ store model_name overwrite,
      t1.get_output env store s1 model_name overwrite =
        t2.get_output env store s2 model_name overwrite := by
  constructor
  · unfold compute_content_key
    rw [h]
  · intro store model_name overwrite
    unfold RAGTask.get_output
    rw [h]

/-- Witness for C5: two distinct tasks building the same prompt text from
different source texts. -/
theorem C5_content_key_deterministic_witness :
    compute_content_key demoEnv demoTask "a" = compute_content_key demoEnv constTask "zzz" ∧
    RAGTask.get_output demoEnv demoTask [] "a" "gpt-4" false =
      RAGTask.get_output demoEnv constTask [] "zzz" "gpt-4" false :=
  ⟨(C5_content_key_deterministic demoEnv demoTask constTask "a" "zzz" (by rfl)).1,
   (C5_content_key_deterministic demoEnv demoTask constTask "a" "zzz" (by rfl)).2
     [] "gpt-4" false⟩

/-- C6: a generation error aborts `get_output` with that error and no
store write happens; dually, if anything was written then the generation
call succeeded and its output is what the call returned. -/
theorem C6_generation_error_aborts_no_write (env : Env) (task : RAGTask) (store : Store)
    (source_text model_name : String) (overwrite : Bool) :
    (∀ e, (task.get_output env store source_text model_name overwrite).result = .error e →
        (call_llm env (task.task_prompt_builder source_text) model_name).result = .error e ∧
        (task.get_output env store source_text model_name overwrite).saved = []) ∧
    (∀ k, k ∈ (task.get_output env store source_text model_name overwrite).saved →
        ∃ g, (call_llm env (task.task_prompt_builder source_text) model_name).result = .ok g ∧
          (task.get_output env store source_text model_name overwrite).result = .ok g) := by
  rcases get_output_outcomes env task store source_text model_name overwrite with
    ⟨out, hr, hsv, _⟩ | ⟨g, hcall, hr, hsv, _⟩ | ⟨e0, hcall, hr, hsv⟩
  · constructor
    · intro e he
      rw [hr] at he
      simp at he
    · intro k hk
      rw [hsv] at hk
      simp at hk
  · constructor
    · intro e he
      rw [hr] at he
      simp at he
    · intro k _
      exact ⟨g, hcall, hr⟩
  · constructor
    · intro e he
      rw [hr] at he
      rw [Except.error.inj he] at hcall
      exact ⟨hcall, hsv⟩
    · intro k hk
      rw [hsv] at hk
      simp at hk

/-- Witness for C6: with an always-failing backend the error propagates
and nothing is written. -/
theorem C6_generation_error_aborts_no_write_witness :
    (RAGTask.get_output failEnv demoTask [] "a" "gpt-4" false).result =
      .error (.backend "boom") ∧
    (RAGTask.get_output failEnv demoTask [] "a" "gpt-4" false).saved = [] :=
  ⟨by rfl,
   ((C6_generation_error_aborts_no_write failEnv demoTask [] "a" "gpt-4" false).1
     (.backend "boom") (by rfl)).2⟩

/-- C7: a model name outside `ALL_MODELS` makes `call_llm` fail with the
"Model name ... not recognised" error (the `UnrecognizedModelError` of
the spec) before any chat-completion request is issued
(`backend_calls = 0`). -/
theorem C7_unrecognised_model_rejected (env : Env) (prompt model_name : String)
    (h : model_name ∉ ALL_MODELS) :
    call_llm env prompt model_name = ⟨.error (.modelNotRecognised model_name), 0⟩ := by
  unfold call_llm
  rw [if_pos h]

/-- Witness for C7 at the model name "unknown-model". -/
theorem C7_unrecognised_model_rejected_witness :
    "unknown-model" ∉ ALL_MODELS ∧
    call_llm demoEnv "p" "unknown-model" =
      ⟨.error (.modelNotRecognised "unknown-model"), 0⟩ :=
  ⟨by decide, C7_unrecognised_model_rejected demoEnv "p" "unknown-model" (by decide)⟩

/-- C8: a non-callable prompt builder is rejected at construction with
the "must be a callable function" error, a callable one is accepted, and
`get_output` itself never raises that construction-time error (it does
not re-check callability). -/
theorem C8_builder_validated_at_construction :
    (∀ f, RAGTask.init (PyValue.callable f) = .ok ⟨f⟩) ∧
    RAGTask.init PyValue.notCallable = .error .notCallable ∧
    ∀ (env : Env) (task : RAGTask) (store : Store) (source_text model_name : String)
      (overwrite : Bool),
      (task.get_output env store source_text model_name overwrite).result ≠
        .error .notCallable := by
  refine ⟨fun f => rfl, rfl, ?_⟩
  intro env task store source_text model_name overwrite hcontra
  have hc := get_output_error_from_call_llm env task store source_text model_name
    overwrite _ hcontra
  rcases call_llm_error_cases env (task.task_prompt_builder source_text) model_name _ hc with
    h1 | h2 | ⟨msg, h3⟩
  · exact RagError.noConfusion h1
  · exact RagError.noConfusion h2
  · exact RagError.noConfusion h3

/-- Witness for C8 at a concrete builder, task and resolve call. -/
theorem C8_builder_validated_at_construction_witness :
    RAGTask.init (PyValue.callable fun s => "P:" ++ s) = .ok ⟨fun s => "P:" ++ s⟩ ∧
    RAGTask.init PyValue.notCallable = .error .notCallable ∧
    (RAGTask.get_output demoEnv demoTask [] "a" "gpt-4" false).result ≠
      .error .notCallable :=
  ⟨C8_builder_validated_at_construction.1 (fun s => "P:" ++ s),
   C8_builder_validated_at_construction.2.1,
   C8_builder_validated_at_construction.2.2 demoEnv demoTask [] "a" "gpt-4" false⟩

/-- C9: every identifier in `ALL_MODELS` contains the substring "gpt", so
`call_llm` can never fail with the "No function exists to handle for
model" error — that branch is unreachable. -/
theorem C9_all_models_dispatch_to_chatgpt :
    (∀ m ∈ ALL_MODELS, containsSub "gpt" m = true) ∧
    ∀ (env : Env) (prompt model_name n : String),
      (call_llm env prompt model_name).result ≠ .error (.noHandlerForModel n) := by
  constructor
  · decide
  · intro env prompt model_name n hcontra
    unfold call_llm at hcontra
    by_cases hm : model_name ∈ ALL_MODELS
    · rw [if_neg (not_not_intro hm)] at hcontra
      have hg : containsSub "gpt" model_name = true := by
        fin_cases hm <;> decide
      rw [if_pos hg] at hcontra
      cases hcc : call_chatgpt env prompt model_name with
      | ok c => rw [hcc] at hcontra; simp at hcontra
      | error msg => rw [hcc] at hcontra; simp at hcontra
    · rw [if_pos hm] at hcontra
      simp at hcontra

/-- Witness for C9: a recognised name contains "gpt", and a concrete
unrecognised name still does not produce the unhandled-model error. -/
theorem C9_all_models_dispatch_to_chatgpt_witness :
    containsSub "gpt" "gpt-4" = true ∧
    (call_llm demoEnv "p" "davinci").result ≠ .error (.noHandlerForModel "davinci") :=
  ⟨C9_all_models_dispatch_to_chatgpt.1 "gpt-4" (by decide),
   C9_all_models_dispatch_to_chatgpt.2 demoEnv "p" "davinci" "davinci"⟩

/-- C10: on the overwrite path the stored record is deleted before the
generation call, and when generation then raises, `get_output` aborts
with the error, the deletion is not rolled back, nothing is written, and
the key is left with no stored record. -/
theorem C10_overwrite_delete_not_restored (env : Env) (task : RAGTask) (store : Store)
    (source_text model_name out : String) (e : RagError)
    (h : load_generated_text store (compute_content_key env task source_text) = some out)
    (hg : (call_llm env (task.task_prompt_builder source_text) model_name).result = .error e) :
    (task.get_output env store source_text model_name true).result = .error e ∧
    (task.get_output env store source_text model_name true).store =
      deleteObject store (compute_content_key env task source_text) ∧
    (task.get_output env store source_text model_name true).deleted =
      [compute_content_key env task source_text] ∧
    (task.get_output env store source_text model_name true).saved = [] ∧
    load_generated_text (task.get_output env store source_text model_name true).store
        (compute_content_key env task source_text) = none := by
  have h' : load_generated_text store
      (env.generate_uuid5 (task.task_prompt_builder source_text)) = some out := h
  have e1 := get_output_overwrite_hit env task store source_text model_name out h'
  rw [generate_and_save_error env _ _ _ model_name e hg] at e1
  rw [e1]
  refine ⟨rfl, rfl, rfl, rfl, ?_⟩
  simp [load_generated_text, compute_content_key, storeLookup_deleteObject]

/-- Witness for C10: concrete overwrite call with a failing backend
leaves the key unbound. -/
theorem C10_overwrite_delete_not_restored_witness :
    (RAGTask.get_output failEnv demoTask [("K:P:a", ⟨"P:a", "OLD"⟩)] "a" "gpt-4" true).result =
      .error (.backend "boom") ∧
    load_generated_text
        (RAGTask.get_output failEnv demoTask [("K:P:a", ⟨"P:a", "OLD"⟩)] "a" "gpt-4" true).store
        (compute_content_key failEnv demoTask "a") = none :=
  ⟨(C10_overwrite_delete_not_restored failEnv demoTask [("K:P:a", ⟨"P:a", "OLD"⟩)] "a" "gpt-4"
      "OLD" (.backend "boom") (by rfl) (by rfl)).1,
   (C10_overwrite_delete_not_restored failEnv demoTask [("K:P:a", ⟨"P:a", "OLD"⟩)] "a" "gpt-4"
      "OLD" (.backend "boom") (by rfl) (by rfl)).2.2.2.2⟩

end Inquisitive
